import Mathlib

/-!
Verification of the response-classification, entity-mapping, signing and
webhook-handling layer of the `lava_api` client SDK
(`src/lava_api/business.py`).

The HTTP transport is external: each `async` operation is embedded as the
pure function from the decoded JSON response (a Python dict, modelled as an
association list of string keys to JSON values) to either the typed success
value or the raised exception.  Python exceptions are modelled as the
`LavaError` sum; raw (non-library) Python exceptions such as `TypeError` or
`ValueError` that the source lets escape are the `pyError` variant.
Nondeterministic inputs (`datetime.datetime.now()`, `random.randint`) are
explicit parameters.
-/

/-- A JSON value as decoded by Python's `json` module.  Python decodes both
JSON ints and floats to numbers; since Python's `==`, `int()` and `float()`
identify `200` with `200.0`, both are modelled as one exact `Rat` field
(no floating-point rounding is relevant to any response field used here).
`jnull` also stands for Python's `None`. -/
inductive JVal where
  | jnull
  | jbool (b : Bool)
  | jnum (q : Rat)
  | jstr (s : String)
  | jarr (xs : List JVal)
  | jobj (fields : List (String × JVal))
  deriving Repr

/-- Python dict lookup (`d.get(k)` / `k in d` razor): a dict with string keys
is an association list with distinct keys; first match wins. -/
def lookupJ (l : List (String × JVal)) (k : String) : Option JVal :=
  match l.find? (fun kv => kv.1 == k) with
  | some kv => some kv.2
  | none => none

/-- Python `k in d` on a dict. -/
def containsKey (l : List (String × JVal)) (k : String) : Bool :=
  (lookupJ l k).isSome

/-- Python `v == n` for an int literal `n`.  Python's `bool` is a subclass of
`int`, so `True == 1`; strings, lists, dicts and `None` never equal a number. -/
def jvalEqNum (v : JVal) (n : Rat) : Bool :=
  match v with
  | .jnum m => decide (m = n)
  | .jbool b => decide ((if b then (1 : Rat) else 0) = n)
  | _ => false

/-- Python `v == s` for a string literal `s`. -/
def jvalEqStr (v : JVal) (s : String) : Bool :=
  match v with
  | .jstr t => t == s
  | _ => false

/-- The decimal digit character for `n % 10`. -/
def decDigit (n : Nat) : Char :=
  match n % 10 with
  | 0 => '0' | 1 => '1' | 2 => '2' | 3 => '3' | 4 => '4'
  | 5 => '5' | 6 => '6' | 7 => '7' | 8 => '8' | _ => '9'

/-- Decimal digits of a natural number, most significant first (the
rendering used by Python's `str()` on non-negative ints).  Structural fuel
recursion so the kernel can evaluate it. -/
def natDigitsAux : Nat → Nat → List Char
  | 0, _ => []
  | fuel + 1, n =>
    if n < 10 then [decDigit n]
    else natDigitsAux fuel (n / 10) ++ [decDigit (n % 10)]

def natDigits (n : Nat) : List Char := natDigitsAux (n + 1) n

/-- Python `str()` of an int. -/
def intStr (i : Int) : String :=
  match i with
  | .ofNat n => String.mk (natDigits n)
  | .negSucc n => String.mk ('-' :: natDigits (n + 1))

/-- Python `str()` of a number decoded from JSON.  Integral values render as
Python ints do.  (CPython renders non-integral floats via `repr` of the
binary double; no claim inspects such a rendering, and it is approximated
here by `num/den`.) -/
def numStr (q : Rat) : String :=
  if q.den = 1 then intStr q.num else intStr q.num ++ "/" ++ intStr (Int.ofNat q.den)

mutual

/-- Python `repr()` of a decoded JSON value (string escaping inside `repr`
of a str is not modelled; no response field used by a claim contains
quotes). -/
def pyRepr : JVal → String
  | .jnull => "None"
  | .jbool true => "True"
  | .jbool false => "False"
  | .jnum q => numStr q
  | .jstr s => "\x27" ++ s ++ "\x27"
  | .jarr xs => "[" ++ String.intercalate ", " (pyReprList xs) ++ "]"
  | .jobj fs => "\x7b" ++ String.intercalate ", " (pyReprFields fs) ++ "\x7d"

def pyReprList : List JVal → List String
  | [] => []
  | v :: vs => pyRepr v :: pyReprList vs

def pyReprFields : List (String × JVal) → List String
  | [] => []
  | (k, v) :: fs => ("\x27" ++ k ++ "\x27: " ++ pyRepr v) :: pyReprFields fs

end

/-- Python `str()` of a decoded JSON value (as used by `str(...)` and by
f-string interpolation in the source). -/
def pyStr : JVal → String
  | .jstr s => s
  | v => pyRepr v

/-- The raw Python exceptions that the source can raise outside of its own
error hierarchy. -/
inductive PyExc where
  | keyError (key : String)
  | valueError (msg : String)
  | typeError (msg : String)
  | attributeError (msg : String)
  deriving Repr, DecidableEq

/-- Digit characters to a Nat (most significant first). -/
def digitsToNat (cs : List Char) : Nat :=
  cs.foldl (fun acc c => acc * 10 + (c.toNat - 48)) 0

/-- Split a leading run of at most `k` digits off a character list. -/
def takeDigitsUpTo : Nat → List Char → (List Char × List Char)
  | 0, cs => ([], cs)
  | _ + 1, [] => ([], [])
  | k + 1, c :: cs =>
    if c.isDigit then
      let r := takeDigitsUpTo k cs
      (c :: r.1, r.2)
    else ([], c :: cs)

/-- Parse an optional sign; returns (negative?, rest). -/
def takeSign : List Char → (Bool × List Char)
  | '-' :: cs => (true, cs)
  | '+' :: cs => (false, cs)
  | cs => (false, cs)

/-- Python `int(s)` on a string: optional sign then decimal digits
(whitespace stripping and underscore separators are not modelled; no input
used here contains them). -/
def parseIntStr (s : String) : Option Int :=
  let (neg, cs) := takeSign s.data
  if cs ≠ [] ∧ cs.all Char.isDigit then
    let n : Int := Int.ofNat (digitsToNat cs)
    some (if neg then -n else n)
  else none

/-- Python `float(s)` on a string holding a plain decimal literal:
optional sign, digits, optional dot and fraction digits, at least one digit
overall.  The decimal value is kept exactly as a rational (CPython rounds to
a binary double; no claim depends on that rounding).  Exponent forms,
`inf`/`nan` and whitespace are not modelled; no input used here has them. -/
def parseFloatStr (s : String) : Option Rat :=
  let (neg, cs) := takeSign s.data
  let (ip, rest) := takeDigitsUpTo cs.length cs
  match rest with
  | [] =>
    if ip = [] then none
    else some (mkRat (if neg then -(Int.ofNat (digitsToNat ip)) else Int.ofNat (digitsToNat ip)) 1)
  | '.' :: frac =>
    let (fp, rest2) := takeDigitsUpTo frac.length frac
    if rest2 = [] ∧ (ip ≠ [] ∨ fp ≠ []) then
      let n : Int := Int.ofNat (digitsToNat ip * 10 ^ fp.length + digitsToNat fp)
      some (mkRat (if neg then -n else n) (10 ^ fp.length))
    else none
  | _ => none

/-- Python `int(v)` on a decoded JSON value: numbers truncate toward zero,
bools are 0/1, strings parse as decimal ints, everything else is a
`TypeError`. -/
def pyInt : JVal → Except PyExc Int
  | .jnum q => .ok (Int.tdiv q.num (Int.ofNat q.den))
  | .jbool b => .ok (if b then 1 else 0)
  | .jstr s =>
    match parseIntStr s with
    | some n => .ok n
    | none => .error (.valueError ("invalid literal for int() with base 10: \x27" ++ s ++ "\x27"))
  | .jnull => .error (.typeError "int() argument must be a string, a bytes-like object or a real number, not \x27NoneType\x27")
  | _ => .error (.typeError "int() argument must be a string, a bytes-like object or a real number")

/-- Python `float(v)` on a decoded JSON value. -/
def pyFloatJ : JVal → Except PyExc Rat
  | .jnum q => .ok q
  | .jbool b => .ok (if b then 1 else 0)
  | .jstr s =>
    match parseFloatStr s with
    | some q => .ok q
    | none => .error (.valueError ("could not convert string to float: \x27" ++ s ++ "\x27"))
  | .jnull => .error (.typeError "float() argument must be a string or a real number, not \x27NoneType\x27")
  | _ => .error (.typeError "float() argument must be a string or a real number")

/-- The error taxonomy of the source: `APIError` (with its
`CreateInvoiceException`, `InvalidParameterException`,
`InvalidSignatureException` subclasses), `InvalidResponseException`,
`InvalidWebhookSignatureException` — plus `pyError` for raw Python
exceptions the source does not catch.  `description` is the positional
`Exception` text; `message` and `code` are the extra `APIError` attributes
(kept as `JVal` because the source assigns raw response values to them). -/
inductive LavaError where
  | apiError (description : String) (message : JVal) (code : JVal)
  | createInvoiceError (description : String) (message : JVal) (code : JVal)
  | invalidParameter (description : String) (message : JVal) (code : JVal)
  | invalidSignature (description : String) (message : JVal) (code : JVal)
  | invalidResponse (message : String)
  | invalidWebhookSignature (message : String)
  | pyError (e : PyExc)
  deriving Repr

/-- Kind tag for classifying results in theorem statements. -/
inductive ErrKind where
  | api
  | createInvoice
  | param
  | sig
  | resp
  | webhookSig
  | py
  deriving Repr, DecidableEq

def LavaError.kind : LavaError → ErrKind
  | .apiError _ _ _ => .api
  | .createInvoiceError _ _ _ => .createInvoice
  | .invalidParameter _ _ _ => .param
  | .invalidSignature _ _ _ => .sig
  | .invalidResponse _ => .resp
  | .invalidWebhookSignature _ => .webhookSig
  | .pyError _ => .py

/-- Kind of the error of a failed call, `none` on success. -/
def errKind {α : Type} : Except LavaError α → Option ErrKind
  | .ok _ => none
  | .error e => some e.kind

/-- The classes named in `except (InvalidParameterException,
InvalidSignatureException, CreateInvoiceException) as ex: raise ex` inside
`create_invoice` — instances of these are re-raised as-is; every other
exception falls to `except Exception` and is replaced by a bare
`InvalidResponseException` (which has no message). -/
def LavaError.reraised : LavaError → Bool
  | .invalidParameter _ _ _ => true
  | .invalidSignature _ _ _ => true
  | .createInvoiceError _ _ _ => true
  | _ => false

/-- The `InvoiceInfo` dataclass.  Python does not enforce the annotations; the
constructor stores the raw response values, so the fields are `JVal`. -/
structure InvoiceInfo where
  invoice_id : JVal
  amount : JVal
  expired : JVal
  status : JVal
  shop_id : JVal
  merchant_name : JVal
  url : JVal
  comment : JVal
  include_service : JVal
  exclude_service : JVal
  deriving Repr

/-- Date-and-time value (`datetime.datetime` restricted to the six fields
the source uses). -/
structure DateTime where
  year : Nat
  month : Nat
  day : Nat
  hour : Nat
  minute : Nat
  second : Nat
  deriving Repr, DecidableEq

/-- The `SuccessfulInvoiceInfo` dataclass.  `payed` is the Python bool computed
by the source, `pay_time` the parsed/fallback datetime, `amount` and
`credited` the results of `float()`; the remaining fields store raw
response values (`custom_field` is `jnull` when the source stores Python
`None`). -/
structure SuccessfulInvoiceInfo where
  invoice_id : JVal
  order_id : JVal
  status : JVal
  payed : Bool
  pay_time : DateTime
  amount : Rat
  credited : Rat
  custom_field : JVal
  deriving Repr

/-! ## `create_invoice` response handling (lines 187-230 of the source) -/

/-- The invoice mapper: the `InvoiceInfo(...)` constructor call guarded by
`try ... except KeyError`, reading `invoice_data` in source argument order.
`dict[k]` on a missing key is `KeyError` (mapped to
`InvalidResponseException("Error while reading data from dictionary")` by
the `except KeyError` arm); `dict.get(k, default)` substitutes the default
only when the key is absent; the `include_service`/`exclude_service` walrus
expressions substitute `[]` when the value is absent or `None`. -/
def invoiceFromData (df : List (String × JVal)) : Except LavaError InvoiceInfo :=
  match lookupJ df "id" with
  | none => .error (.invalidResponse "Error while reading data from dictionary")
  | some vid =>
  match lookupJ df "amount" with
  | none => .error (.invalidResponse "Error while reading data from dictionary")
  | some vam =>
  match lookupJ df "expired" with
  | none => .error (.invalidResponse "Error while reading data from dictionary")
  | some vex =>
  match lookupJ df "status" with
  | none => .error (.invalidResponse "Error while reading data from dictionary")
  | some vst =>
  match lookupJ df "shop_id" with
  | none => .error (.invalidResponse "Error while reading data from dictionary")
  | some vsh =>
  match lookupJ df "url" with
  | none => .error (.invalidResponse "Error while reading data from dictionary")
  | some vurl =>
    .ok ⟨vid, vam, vex, vst, vsh,
      (lookupJ df "merchantName").getD (.jstr "Merchant"),
      vurl,
      (lookupJ df "comment").getD (.jstr "Comment"),
      (match (lookupJ df "include_service").getD .jnull with
        | .jnull => .jarr []
        | v => v),
      (match (lookupJ df "exclude_service").getD .jnull with
        | .jnull => .jarr []
        | v => v)⟩

/-- The four-way dispatch on `request_status := response_json.get("status", 0)`
inside `create_invoice`, before the outer
`except (...) / except Exception` wrapping. -/
def ciDispatch (st : JVal) (rj : List (String × JVal)) : Except LavaError InvoiceInfo :=
  if jvalEqNum st 200 then
    match (lookupJ rj "data").getD .jnull with
    | .jnull => .error (.invalidResponse "No \x27data\x27 field")
    | .jobj df => invoiceFromData df
    | _ => .error (.pyError (.typeError "subscripting a non-dict \x27data\x27 value"))
  else if jvalEqNum st 422 then
    match (lookupJ rj "error").getD (.jstr "") with
    | .jobj errFields =>
      .error (.invalidParameter
        ("Invalid parameters: " ++ String.intercalate ", " (errFields.map Prod.fst)
          ++ "; Code: " ++ pyStr st ++ "; Message: " ++ pyStr (.jobj errFields))
        (.jstr (pyStr (.jobj errFields))) st)
    | errv => .error (.invalidResponse ("Invalid \x27error\x27 field: " ++ pyStr errv))
  else if jvalEqNum st 401 then
    .error (.invalidSignature
      ("Invalid signature. Code: " ++ pyStr st ++ "; Message: " ++ pyStr ((lookupJ rj "error").getD (.jstr "")))
      ((lookupJ rj "error").getD (.jstr "")) st)
  else
    .error (.createInvoiceError
      ("Unexpected error. Code: " ++ pyStr st ++ "; Message: " ++ pyStr ((lookupJ rj "error").getD (.jstr "")))
      ((lookupJ rj "error").getD (.jstr "")) st)

/-- Operation `create_invoice` from the decoded JSON response on: the dispatch wrapped
by `except (InvalidParameterException, InvalidSignatureException,
CreateInvoiceException) as ex: raise ex / except Exception:
raise InvalidResponseException` — the bare re-raise constructs a fresh
`InvalidResponseException()` with no message. -/
def create_invoice_handle_response (rj : List (String × JVal)) : Except LavaError InvoiceInfo :=
  match ciDispatch ((lookupJ rj "status").getD (.jnum 0)) rj with
  | .ok v => .ok v
  | .error e => if e.reraised then .error e else .error (.invalidResponse "")

/-! ## `get_balance` response handling (lines 290-306) -/

/-- The `status == 200` arm shared by `get_balance`:
`response_json["data"]` guarded by `except KeyError`, then
`data["balance"]` guarded by `except KeyError`.  Subscripting a non-dict
`data` raises an uncaught `TypeError`. -/
def balanceFromResponse (rj : List (String × JVal)) : Except LavaError JVal :=
  match lookupJ rj "data" with
  | none => .error (.invalidResponse "No \x27data\x27 field")
  | some (.jobj df) =>
    match lookupJ df "balance" with
    | none => .error (.invalidResponse "No \x27balance\x27 field")
    | some b => .ok b
  | some _ => .error (.pyError (.typeError "subscripting a non-dict \x27data\x27 value"))

/-- The three-way dispatch of `get_balance` on
`response_json.get("status", "error")`.  Note: there is no wrapping
`try/except` here — `AttributeError` (from `.keys()` on a non-dict
`error`) and `TypeError`/`ValueError` (from `int()` on a missing or
non-numeric status) escape to the caller raw. -/
def gbDispatch (st : JVal) (rj : List (String × JVal)) : Except LavaError JVal :=
  if jvalEqNum st 422 then
    match (lookupJ rj "error").getD (.jobj []) with
    | .jobj errFields =>
      match pyInt ((lookupJ rj "status").getD .jnull) with
      | .error e => .error (.pyError e)
      | .ok n =>
        .error (.invalidParameter
          ("Invalid parameters: " ++ String.intercalate ", " (errFields.map Prod.fst))
          (.jstr (pyStr ((lookupJ rj "error").getD .jnull))) (.jnum (n : Rat)))
    | _ => .error (.pyError (.attributeError "keys"))
  else if jvalEqNum st 200 then
    balanceFromResponse rj
  else
    match pyInt ((lookupJ rj "status").getD .jnull) with
    | .error e => .error (.pyError e)
    | .ok n =>
      .error (.apiError
        ("API error: " ++ pyStr ((lookupJ rj "error").getD .jnull))
        (.jstr (pyStr ((lookupJ rj "error").getD .jnull))) (.jnum (n : Rat)))

def get_balance_handle_response (rj : List (String × JVal)) : Except LavaError JVal :=
  gbDispatch ((lookupJ rj "status").getD (.jstr "error")) rj

/-! ## `payoff` response handling (lines 336-352) -/

/-- The `status == 200` arm of `payoff`: requires `data`, then
`str(data["payoff_id"])`; a missing `payoff_id` is reported as
"No 'payoff' field". -/
def payoffFromResponse (rj : List (String × JVal)) : Except LavaError String :=
  match lookupJ rj "data" with
  | none => .error (.invalidResponse "No \x27data\x27 field")
  | some (.jobj df) =>
    match lookupJ df "payoff_id" with
    | none => .error (.invalidResponse "No \x27payoff\x27 field")
    | some v => .ok (pyStr v)
  | some _ => .error (.pyError (.typeError "subscripting a non-dict \x27data\x27 value"))

/-- The three-way dispatch of `payoff`, same shape as `get_balance` with a
different 422 description. -/
def poDispatch (st : JVal) (rj : List (String × JVal)) : Except LavaError String :=
  if jvalEqNum st 422 then
    match (lookupJ rj "error").getD (.jobj []) with
    | .jobj errFields =>
      match pyInt ((lookupJ rj "status").getD .jnull) with
      | .error e => .error (.pyError e)
      | .ok n =>
        .error (.invalidParameter
          ("Invalid parameters: " ++ String.intercalate ", " (errFields.map Prod.fst)
            ++ "; Message: " ++ pyStr ((lookupJ rj "error").getD (.jstr "")))
          (.jstr (pyStr ((lookupJ rj "error").getD .jnull))) (.jnum (n : Rat)))
    | _ => .error (.pyError (.attributeError "keys"))
  else if jvalEqNum st 200 then
    payoffFromResponse rj
  else
    match pyInt ((lookupJ rj "status").getD .jnull) with
    | .error e => .error (.pyError e)
    | .ok n =>
      .error (.apiError
        ("API error: " ++ pyStr ((lookupJ rj "error").getD .jnull))
        (.jstr (pyStr ((lookupJ rj "error").getD .jnull))) (.jnum (n : Rat)))

def payoff_handle_response (rj : List (String × JVal)) : Except LavaError String :=
  poDispatch ((lookupJ rj "status").getD (.jstr "error")) rj

/-! ## `handle_webhook` (lines 232-276) -/

/-- Days per month with the Gregorian leap rule (the validation
`datetime` applies when `strptime` builds the date). -/
def daysInMonth (y m : Nat) : Nat :=
  if m = 2 then
    if y % 4 = 0 ∧ (y % 100 ≠ 0 ∨ y % 400 = 0) then 29 else 28
  else if m = 4 ∨ m = 6 ∨ m = 9 ∨ m = 11 then 30
  else 31

/-- Python `datetime.datetime.strptime(s, "%Y-%m-%d %H:%M:%S")`: exactly four
digits for `%Y`, one or two (greedy) for each other field, literal
separators, the whole string consumed, and the field ranges `datetime`
accepts.  `none` models the `ValueError` the caller catches. -/
def strptimeYmdHms (s : String) : Option DateTime :=
  let (yd, r1) := takeDigitsUpTo 4 s.data
  match r1 with
  | '-' :: r2 =>
    let (md, r3) := takeDigitsUpTo 2 r2
    match r3 with
    | '-' :: r4 =>
      let (dd, r5) := takeDigitsUpTo 2 r4
      match r5 with
      | ' ' :: r6 =>
        let (hd, r7) := takeDigitsUpTo 2 r6
        match r7 with
        | ':' :: r8 =>
          let (mind, r9) := takeDigitsUpTo 2 r8
          match r9 with
          | ':' :: r10 =>
            let (sd, r11) := takeDigitsUpTo 2 r10
            if yd.length = 4 ∧ md ≠ [] ∧ dd ≠ [] ∧ hd ≠ [] ∧ mind ≠ [] ∧ sd ≠ [] ∧ r11 = [] then
              let y := digitsToNat yd
              let mo := digitsToNat md
              let d := digitsToNat dd
              let h := digitsToNat hd
              let mi := digitsToNat mind
              let sec := digitsToNat sd
              if 1 ≤ y ∧ 1 ≤ mo ∧ mo ≤ 12 ∧ 1 ≤ d ∧ d ≤ daysInMonth y mo ∧
                  h ≤ 23 ∧ mi ≤ 59 ∧ sec ≤ 59 then
                some ⟨y, mo, d, h, mi, sec⟩
              else none
            else none
          | _ => none
        | _ => none
      | _ => none
    | _ => none
  | _ => none

/-- Python `str.lower()` (ASCII; HTTP header names are ASCII). -/
def lowerStr (s : String) : String := String.mk (s.data.map Char.toLower)

/-- The comprehension over `headers.items()` lowercasing keys — a freshly built dict
with lowercased keys. -/
def lowerHeaders (hs : List (String × JVal)) : List (String × JVal) :=
  hs.map (fun kv => (lowerStr kv.1, kv.2))

/-- The `SuccessfulInvoiceInfo(...)` constructor call with its
`try ... except KeyError` guard, with `pay_time` already computed.  Source
argument order: `invoice_id`, `order_id` (`.get` with `""` default),
`status`, `status == "success"`, `pay_time`, `float(amount)`,
`float(credited)`, then the malformed `custom_field` conditional.  A
`KeyError` at any subscript becomes
`InvalidResponseException("Error while reading data from dictionary")`;
a `ValueError`/`TypeError` from `float()` is not caught and escapes.

The last argument of the source,
`custom_fields if (custom_fields := received_data.get("custom_field"), None) is not None else ""`,
compares the two-element tuple `(received_data.get("custom_field"), None)`
against `None`; a tuple is never `None`, so the `else ""` branch is dead and
the stored value is always `received_data.get("custom_field")` — the raw
value when present, Python `None` (here `jnull`) when absent. -/
def webhookBuild (pay_time : DateTime) (rd : List (String × JVal)) :
    Except LavaError SuccessfulInvoiceInfo :=
  match lookupJ rd "invoice_id" with
  | none => .error (.invalidResponse "Error while reading data from dictionary")
  | some vid =>
  match lookupJ rd "status" with
  | none => .error (.invalidResponse "Error while reading data from dictionary")
  | some vst =>
  match lookupJ rd "amount" with
  | none => .error (.invalidResponse "Error while reading data from dictionary")
  | some va =>
  match pyFloatJ va with
  | .error e => .error (.pyError e)
  | .ok qa =>
  match lookupJ rd "credited" with
  | none => .error (.invalidResponse "Error while reading data from dictionary")
  | some vc =>
  match pyFloatJ vc with
  | .error e => .error (.pyError e)
  | .ok qc =>
    .ok ⟨vid, (lookupJ rd "order_id").getD (.jstr ""), vst, jvalEqStr vst "success",
      pay_time, qa, qc, (lookupJ rd "custom_field").getD .jnull⟩

/-- The inner `try: pay_time = strptime(received_data["payed"], ...)
except (ValueError, KeyError): pay_time = now` followed by the constructor
call.  A present non-string `payed` makes `strptime` raise `TypeError`,
which neither `except` arm catches. -/
def handle_webhook_mapper (now : DateTime) (rd : List (String × JVal)) :
    Except LavaError SuccessfulInvoiceInfo :=
  match lookupJ rd "payed" with
  | none => webhookBuild now rd
  | some (.jstr s) => webhookBuild ((strptimeYmdHms s).getD now) rd
  | some _ => .error (.pyError (.typeError "strptime() argument 1 must be str"))

/-- The value `pay_time` ends up with on the non-escaping paths. -/
def webhookPayTime (now : DateTime) (rd : List (String × JVal)) : DateTime :=
  match lookupJ rd "payed" with
  | some (.jstr s) => (strptimeYmdHms s).getD now
  | _ => now

/-- Operation `handle_webhook(received_data, headers)`: lowercase the header keys,
require an `authorization` key (else
`InvalidWebhookSignatureException("No 'Authorization' header")`), then run
the mapper.  The signature-value comparison in the source is commented out;
no header value is inspected.  `datetime.datetime.now()` is the explicit
`now` parameter. -/
def handle_webhook (now : DateTime) (rd hs : List (String × JVal)) :
    Except LavaError SuccessfulInvoiceInfo :=
  if containsKey (lowerHeaders hs) "authorization" then
    handle_webhook_mapper now rd
  else
    .error (.invalidWebhookSignature "No \x27Authorization\x27 header")

/-! ## `generate_random_order_id` (lines 110-119) -/

/-- Formatting of a four- or two-digit field: decimal digits left-padded with zeros to width `w`. -/
def zeroPad (w n : Nat) : List Char :=
  List.replicate (w - (natDigits n).length) '0' ++ natDigits n

/-- Python `now.strftime` with format `%Y%m%d` (for years 1000-9999, where `%Y` is four
digits on every platform). -/
def strftimeYmd (d : DateTime) : List Char :=
  zeroPad 4 d.year ++ zeroPad 2 d.month ++ zeroPad 2 d.day

/-- Python `now.strftime` with format `%H%M%S`. -/
def strftimeHms (d : DateTime) : List Char :=
  zeroPad 2 d.hour ++ zeroPad 2 d.minute ++ zeroPad 2 d.second

/-- Function `generate_random_order_id`, with the generation instant and the two
draws of `random.randint(0, 9999)` as explicit parameters. -/
def generate_random_order_id (now : DateTime) (r1 r2 : Nat) : String :=
  String.mk (strftimeYmd now ++ '-' :: zeroPad 4 r1 ++ '-' :: strftimeHms now ++ '-' :: zeroPad 4 r2)

/-- Decides the regex `\d\{8\}-\d\{4\}-\d\{6\}-\d\{4\}` (anchored). -/
def digitRun : Nat → List Char → Option (List Char)
  | 0, cs => some cs
  | _ + 1, [] => none
  | k + 1, c :: cs => if c.isDigit then digitRun k cs else none

/-- Consume a literal dash. -/
def expectDash : List Char → Option (List Char)
  | '-' :: cs => some cs
  | _ => none

def matchesOrderIdPattern (s : String) : Bool :=
  match (((((((digitRun 8 s.data).bind expectDash).bind (digitRun 4)).bind
      expectDash).bind (digitRun 6)).bind expectDash).bind (digitRun 4)) with
  | some [] => true
  | _ => false

/-! ## `generate_signature` (lines 96-108): HMAC-SHA256 over UTF-8 bytes -/

/-- UTF-8 encoding of one Unicode code point (`str.encode()` /
`bytes(s, 'UTF-8')`). -/
def utf8Char (c : Char) : List Nat :=
  let n := c.toNat
  if n < 128 then [n]
  else if n < 2048 then [192 ||| (n >>> 6), 128 ||| (n &&& 63)]
  else if n < 65536 then
    [224 ||| (n >>> 12), 128 ||| ((n >>> 6) &&& 63), 128 ||| (n &&& 63)]
  else
    [240 ||| (n >>> 18), 128 ||| ((n >>> 12) &&& 63), 128 ||| ((n >>> 6) &&& 63), 128 ||| (n &&& 63)]

def utf8Bytes (s : String) : List Nat :=
  (s.data.map utf8Char).flatten

/-- Truncation to a 32-bit word. -/
def w32 (n : Nat) : Nat := n % 4294967296

/-- Right rotation of a 32-bit word (operands below 2^32). -/
def rotr (k n : Nat) : Nat := w32 ((n >>> k) ||| (n <<< (32 - k)))

/-- Complement of a 32-bit word (operand below 2^32). -/
def compl32 (n : Nat) : Nat := 4294967295 - n

/-- The 64 SHA-256 round constants of FIPS 180-4 (fractional parts of the
cube roots of the first 64 primes), written in decimal. -/
def sha256K : List Nat :=
  [1116352408, 1899447441, 3049323471, 3921009573, 961987163, 1508970993,
   2453635748, 2870763221, 3624381080, 310598401, 607225278, 1426881987,
   1925078388, 2162078206, 2614888103, 3248222580, 3835390401, 4022224774,
   264347078, 604807628, 770255983, 1249150122, 1555081692, 1996064986,
   2554220882, 2821834349, 2952996808, 3210313671, 3336571891, 3584528711,
   113926993, 338241895, 666307205, 773529912, 1294757372, 1396182291,
   1695183700, 1986661051, 2177026350, 2456956037, 2730485921, 2820302411,
   3259730800, 3345764771, 3516065817, 3600352804, 4094571909, 275423344,
   430227734, 506948616, 659060556, 883997877, 958139571, 1322822218,
   1537002063, 1747873779, 1955562222, 2024104815, 2227730452, 2361852424,
   2428436474, 2756734187, 3204031479, 3329325298]

/-- SHA-256 working state. -/
structure Sha256State where
  a : Nat
  b : Nat
  c : Nat
  d : Nat
  e : Nat
  f : Nat
  g : Nat
  h : Nat

/-- The eight SHA-256 initial hash words of FIPS 180-4, in decimal. -/
def sha256Init : Sha256State :=
  ⟨1779033703, 3144134277, 1013904242, 2773480762,
   1359893119, 2600822924, 528734635, 1541459225⟩

/-- Big-endian bytes of `n`, `k` bytes wide. -/
def bytesBE (k n : Nat) : List Nat :=
  (List.range k).map (fun i => n / 2 ^ (8 * (k - 1 - i)) % 256)

/-- SHA-256 padding: `0x80`, zeros to 56 mod 64, then the 64-bit bit length. -/
def sha256pad (msg : List Nat) : List Nat :=
  msg ++ 128 :: List.replicate ((119 - msg.length % 64) % 64) 0 ++ bytesBE 8 (8 * msg.length)

/-- Split into 64-byte blocks (structural fuel recursion on the length). -/
def chunks64Aux : Nat → List Nat → List (List Nat)
  | 0, _ => []
  | _ + 1, [] => []
  | fuel + 1, l => l.take 64 :: chunks64Aux fuel (l.drop 64)

def chunks64 (l : List Nat) : List (List Nat) := chunks64Aux l.length l

/-- The 16 big-endian 32-bit words of one 64-byte block. -/
def blockWords (block : List Nat) : List Nat :=
  (List.range 16).map (fun i =>
    block.getD (4 * i) 0 * 16777216 + block.getD (4 * i + 1) 0 * 65536 +
    block.getD (4 * i + 2) 0 * 256 + block.getD (4 * i + 3) 0)

def smallSigma0 (x : Nat) : Nat := rotr 7 x ^^^ rotr 18 x ^^^ (x >>> 3)

def smallSigma1 (x : Nat) : Nat := rotr 17 x ^^^ rotr 19 x ^^^ (x >>> 10)

def bigSigma0 (x : Nat) : Nat := rotr 2 x ^^^ rotr 13 x ^^^ rotr 22 x

def bigSigma1 (x : Nat) : Nat := rotr 6 x ^^^ rotr 11 x ^^^ rotr 25 x

/-- Extend 16 words to the 64-word message schedule. -/
def sha256Schedule (ws : List Nat) : List Nat :=
  (List.range 48).foldl (fun w i =>
    w ++ [w32 (smallSigma1 (w.getD (i + 14) 0) + w.getD (i + 9) 0 +
      smallSigma0 (w.getD (i + 1) 0) + w.getD i 0)]) ws

/-- One compression round. -/
def sha256Round (st : Sha256State) (wk : Nat × Nat) : Sha256State :=
  let t1 := w32 (st.h + bigSigma1 st.e + ((st.e &&& st.f) ^^^ (compl32 st.e &&& st.g)) + wk.2 + wk.1)
  let t2 := w32 (bigSigma0 st.a + ((st.a &&& st.b) ^^^ (st.a &&& st.c) ^^^ (st.b &&& st.c)))
  ⟨w32 (t1 + t2), st.a, st.b, st.c, w32 (st.d + t1), st.e, st.f, st.g⟩

def sha256Block (st : Sha256State) (block : List Nat) : Sha256State :=
  let f := ((sha256Schedule (blockWords block)).zip sha256K).foldl sha256Round st
  ⟨w32 (st.a + f.a), w32 (st.b + f.b), w32 (st.c + f.c), w32 (st.d + f.d),
   w32 (st.e + f.e), w32 (st.f + f.f), w32 (st.g + f.g), w32 (st.h + f.h)⟩

/-- Big-endian bytes of one hash word. -/
def wordBytes (w : Nat) : List Nat :=
  [w / 16777216 % 256, w / 65536 % 256, w / 256 % 256, w % 256]

/-- Python `hashlib.sha256(msg).digest()` as a list of 32 bytes. -/
def sha256 (msg : List Nat) : List Nat :=
  let st := (chunks64 (sha256pad msg)).foldl sha256Block sha256Init
  wordBytes st.a ++ wordBytes st.b ++ wordBytes st.c ++ wordBytes st.d ++
  wordBytes st.e ++ wordBytes st.f ++ wordBytes st.g ++ wordBytes st.h

/-- Python `hmac.new(key, msg, hashlib.sha256).digest()` (RFC 2104, block size 64). -/
def hmacSha256 (key msg : List Nat) : List Nat :=
  let k1 := if 64 < key.length then sha256 key else key
  let k2 := k1 ++ List.replicate (64 - k1.length) 0
  sha256 ((k2.map (fun b => b ^^^ 92)) ++ sha256 ((k2.map (fun b => b ^^^ 54)) ++ msg))

/-- The sixteen characters `hexdigest` can emit: the decimal digits
followed by the lowercase letters a-f. -/
def lowerHexDigitChars : List Char :=
  ['0', '1', '2', '3', '4'] ++ ['5', '6', '7', '8', '9']

def lowerHexLetterChars : List Char :=
  ['a', 'b', 'c', 'd', 'e', 'f']

def lowerHexChars : List Char :=
  lowerHexDigitChars ++ lowerHexLetterChars

def hexDigitChar (n : Nat) : Char :=
  match n % 16 with
  | 0 => '0' | 1 => '1' | 2 => '2' | 3 => '3' | 4 => '4' | 5 => '5' | 6 => '6' | 7 => '7'
  | 8 => '8' | 9 => '9' | 10 => 'a' | 11 => 'b' | 12 => 'c' | 13 => 'd' | 14 => 'e' | _ => 'f'

/-- Rendering of `.hexdigest()`: two lowercase hex digits per byte. -/
def hexChars : List Nat → List Char
  | [] => []
  | b :: bs => hexDigitChar (b / 16) :: hexDigitChar (b % 16) :: hexChars bs

def hexEncode (bs : List Nat) : String := String.mk (hexChars bs)

/-- Method `generate_signature(self, string)`:
`hmac.new(bytes(self.secret_key, 'UTF-8'), string.encode(), hashlib.sha256).hexdigest()`. -/
def generate_signature (secret_key string : String) : String :=
  hexEncode (hmacSha256 (utf8Bytes secret_key) (utf8Bytes string))

/-! ## Frame behaviour of `handle_webhook` (claim C10)

To express that `handle_webhook` does not mutate its dict arguments, the
function is re-embedded in state-passing style: the state is the pair of
argument dicts, and every dict operation the source performs on them —
`headers.items()` (read during the comprehension), `"authorization" in ...`
(on the freshly built lowered copy, not on an argument),
`received_data[k]` and `received_data.get(k, d)` (reads) — is a
state transformer returning its result together with the state it leaves
behind.  No operation used writes, so each returns its input state. -/

structure WebhookArgs where
  received_data : List (String × JVal)
  headers : List (String × JVal)

/-- Read `headers.items()`. -/
def whItems (st : WebhookArgs) : List (String × JVal) × WebhookArgs :=
  (st.headers, st)

/-- Read `received_data.get(k)` / `received_data[k]` (`[k]` raises
`KeyError` when the result is `none`). -/
def whGetRD (st : WebhookArgs) (k : String) : Option JVal × WebhookArgs :=
  (lookupJ st.received_data k, st)

/-- The constructor phase of `handle_webhook` in state-passing style. -/
def webhookBuildSt (pay_time : DateTime) (st0 : WebhookArgs) :
    Except LavaError SuccessfulInvoiceInfo × WebhookArgs :=
  let r1 := whGetRD st0 "invoice_id"
  match r1.1 with
  | none => (.error (.invalidResponse "Error while reading data from dictionary"), r1.2)
  | some vid =>
  let r2 := whGetRD r1.2 "order_id"
  let order_id := r2.1.getD (.jstr "")
  let r3 := whGetRD r2.2 "status"
  match r3.1 with
  | none => (.error (.invalidResponse "Error while reading data from dictionary"), r3.2)
  | some vst =>
  let r4 := whGetRD r3.2 "amount"
  match r4.1 with
  | none => (.error (.invalidResponse "Error while reading data from dictionary"), r4.2)
  | some va =>
  match pyFloatJ va with
  | .error e => (.error (.pyError e), r4.2)
  | .ok qa =>
  let r5 := whGetRD r4.2 "credited"
  match r5.1 with
  | none => (.error (.invalidResponse "Error while reading data from dictionary"), r5.2)
  | some vc =>
  match pyFloatJ vc with
  | .error e => (.error (.pyError e), r5.2)
  | .ok qc =>
  let r6 := whGetRD r5.2 "custom_field"
  (.ok ⟨vid, order_id, vst, jvalEqStr vst "success", pay_time, qa, qc, r6.1.getD .jnull⟩, r6.2)

/-- Operation `handle_webhook` in state-passing style. -/
def handle_webhook_st (now : DateTime) (st0 : WebhookArgs) :
    Except LavaError SuccessfulInvoiceInfo × WebhookArgs :=
  let r0 := whItems st0
  let lowered := r0.1.map (fun kv => (lowerStr kv.1, kv.2))
  if containsKey lowered "authorization" then
    let rp := whGetRD r0.2 "payed"
    match rp.1 with
    | none => webhookBuildSt now rp.2
    | some (.jstr s) => webhookBuildSt ((strptimeYmdHms s).getD now) rp.2
    | some _ => (.error (.pyError (.typeError "strptime() argument 1 must be str")), rp.2)
  else
    (.error (.invalidWebhookSignature "No \x27Authorization\x27 header"), r0.2)

/-! ## Helper lemmas -/

theorem sha256_length (msg : List Nat) : (sha256 msg).length = 32 := by
  simp [sha256, wordBytes]

theorem hmacSha256_length (key msg : List Nat) : (hmacSha256 key msg).length = 32 := by
  simp [hmacSha256, sha256_length]

theorem hexChars_length (bs : List Nat) : (hexChars bs).length = 2 * bs.length := by
  induction bs with
  | nil => rfl
  | cons b bs ih => simp [hexChars, ih]; ring

theorem hexDigitChar_mem (n : Nat) : hexDigitChar n ∈ lowerHexChars := by
  unfold hexDigitChar
  split <;> decide

theorem hexChars_mem (bs : List Nat) : ∀ c ∈ hexChars bs, c ∈ lowerHexChars := by
  induction bs with
  | nil => intro c hc; cases hc
  | cons b bs ih =>
    intro c hc
    rcases hc with _ | ⟨_, hc⟩
    · exact hexDigitChar_mem _
    · rcases hc with _ | ⟨_, hc⟩
      · exact hexDigitChar_mem _
      · exact ih c hc

/-- Claim C4: `generate_signature` is exactly the lowercase hex rendering of
HMAC-SHA256 with key = UTF-8 bytes of the secret key and message = UTF-8
bytes of the payload string; the result always has 64 characters, all of
them lowercase hex digits, and the function is deterministic: equal payload
strings (with the same key) give equal signatures. -/
theorem c4_signature (key s s2 : String) (hs : s = s2) :
    generate_signature key s = hexEncode (hmacSha256 (utf8Bytes key) (utf8Bytes s)) ∧
    (generate_signature key s).length = 64 ∧
    (∀ c ∈ (generate_signature key s).data, c ∈ lowerHexChars) ∧
    generate_signature key s = generate_signature key s2 := by
  refine ⟨rfl, ?_, ?_, by rw [hs]⟩
  · show (String.mk (hexChars (hmacSha256 (utf8Bytes key) (utf8Bytes s)))).length = 64
    simp [String.length, hexChars_length, hmacSha256_length]
  · intro c hc
    exact hexChars_mem _ c hc

/-- Witness for C4 at a concrete key and payload. -/
theorem c4_signature_witness :
    (generate_signature "key" "The quick brown fox").length = 64 ∧
    generate_signature "key" "The quick brown fox" = generate_signature "key" "The quick brown fox" :=
  ⟨(c4_signature "key" "The quick brown fox" "The quick brown fox" rfl).2.1,
   (c4_signature "key" "The quick brown fox" "The quick brown fox" rfl).2.2.2⟩

theorem decDigit_isDigit (n : Nat) : (decDigit n).isDigit = true := by
  unfold decDigit
  split <;> decide

theorem natDigitsAux_digits (fuel : Nat) :
    ∀ n, ∀ c ∈ natDigitsAux fuel n, c.isDigit = true := by
  induction fuel with
  | zero => intro n c hc; cases hc
  | succ fuel ih =>
    intro n c hc
    unfold natDigitsAux at hc
    by_cases h : n < 10
    · simp only [h, if_pos] at hc
      rcases hc with _ | ⟨_, hc⟩
      · exact decDigit_isDigit n
      · cases hc
    · simp only [h, if_neg, not_false_iff, List.mem_append] at hc
      rcases hc with hc | hc
      · exact ih (n / 10) c hc
      · rcases hc with _ | ⟨_, hc⟩
        · exact decDigit_isDigit _
        · cases hc

theorem natDigits_digits (n : Nat) : ∀ c ∈ natDigits n, c.isDigit = true :=
  natDigitsAux_digits (n + 1) n

theorem natDigitsAux_length (fuel : Nat) :
    ∀ n w, 1 ≤ w → n < 10 ^ w → (natDigitsAux fuel n).length ≤ w := by
  induction fuel with
  | zero => intro n w _ _; simp [natDigitsAux]
  | succ fuel ih =>
    intro n w hw hn
    unfold natDigitsAux
    by_cases h : n < 10
    · simpa [h] using hw
    · have hw2 : 2 ≤ w := by
        by_contra hcon
        have : w = 1 := by omega
        subst this
        simp at hn
        omega
      have hdiv : n / 10 < 10 ^ (w - 1) := by
        have h10 : 0 < 10 := by norm_num
        rw [Nat.div_lt_iff_lt_mul h10]
        have : 10 ^ (w - 1) * 10 = 10 ^ w := by
          rw [← pow_succ]
          congr 1
          omega
        omega
      have := ih (n / 10) (w - 1) (by omega) hdiv
      simp only [h, if_neg, not_false_iff, List.length_append, List.length_cons,
        List.length_nil]
      omega

theorem natDigits_length (n w : Nat) (hw : 1 ≤ w) (hn : n < 10 ^ w) :
    (natDigits n).length ≤ w :=
  natDigitsAux_length (n + 1) n w hw hn

theorem zeroPad_length (w n : Nat) (hw : 1 ≤ w) (hn : n < 10 ^ w) :
    (zeroPad w n).length = w := by
  have h := natDigits_length n w hw hn
  simp [zeroPad, List.length_append, List.length_replicate]
  omega

theorem zeroPad_digits (w n : Nat) : ∀ c ∈ zeroPad w n, c.isDigit = true := by
  intro c hc
  rcases List.mem_append.mp hc with hc | hc
  · have := List.eq_of_mem_replicate hc
    subst this
    decide
  · exact natDigits_digits n c hc

theorem digitRun_exact (ds rest : List Char) (hd : ∀ c ∈ ds, c.isDigit = true) :
    digitRun ds.length (ds ++ rest) = some rest := by
  induction ds with
  | nil => rfl
  | cons c cs ih =>
    have hc : c.isDigit = true := hd c (List.mem_cons_self c cs)
    simp only [List.length_cons, List.cons_append, digitRun, hc, if_pos]
    exact ih (fun x hx => hd x (List.mem_cons_of_mem c hx))

theorem digitRun_of (k : Nat) (ds rest : List Char) (hlen : ds.length = k)
    (hd : ∀ c ∈ ds, c.isDigit = true) : digitRun k (ds ++ rest) = some rest := by
  subst hlen
  exact digitRun_exact ds rest hd

theorem strftimeYmd_length (now : DateTime) (hy : now.year ≤ 9999)
    (hm : now.month ≤ 99) (hd : now.day ≤ 99) : (strftimeYmd now).length = 8 := by
  simp [strftimeYmd, List.length_append,
    zeroPad_length 4 now.year (by omega) (by norm_num; omega),
    zeroPad_length 2 now.month (by omega) (by norm_num; omega),
    zeroPad_length 2 now.day (by omega) (by norm_num; omega)]

theorem strftimeYmd_digits (now : DateTime) : ∀ c ∈ strftimeYmd now, c.isDigit = true := by
  intro c hc
  simp only [strftimeYmd, List.mem_append] at hc
  rcases hc with (hc | hc) | hc
  · exact zeroPad_digits _ _ c hc
  · exact zeroPad_digits _ _ c hc
  · exact zeroPad_digits _ _ c hc

theorem strftimeHms_length (now : DateTime) (hh : now.hour ≤ 99)
    (hm : now.minute ≤ 99) (hs : now.second ≤ 99) : (strftimeHms now).length = 6 := by
  simp [strftimeHms, List.length_append,
    zeroPad_length 2 now.hour (by omega) (by norm_num; omega),
    zeroPad_length 2 now.minute (by omega) (by norm_num; omega),
    zeroPad_length 2 now.second (by omega) (by norm_num; omega)]

theorem strftimeHms_digits (now : DateTime) : ∀ c ∈ strftimeHms now, c.isDigit = true := by
  intro c hc
  simp only [strftimeHms, List.mem_append] at hc
  rcases hc with (hc | hc) | hc
  · exact zeroPad_digits _ _ c hc
  · exact zeroPad_digits _ _ c hc
  · exact zeroPad_digits _ _ c hc

/-- Claim C9: for any generation instant with valid calendar fields (and a
four-digit year, as `%Y` renders on all platforms only in that range) and
any two draws of `random.randint(0, 9999)`, the generated order id matches
`\d\{8\}-\d\{4\}-\d\{6\}-\d\{4\}`: date, four-digit zero-padded first
draw, time, four-digit zero-padded second draw.  No uniqueness check exists
in the source — the result is a pure function of the instant and the two
draws. -/
theorem c9_order_id (now : DateTime) (r1 r2 : Nat)
    (hy1 : 1000 ≤ now.year) (hy : now.year ≤ 9999)
    (hmo : now.month ≤ 12) (hd : now.day ≤ 31) (hh : now.hour ≤ 23)
    (hmi : now.minute ≤ 59) (hs : now.second ≤ 59)
    (hr1 : r1 ≤ 9999) (hr2 : r2 ≤ 9999) :
    matchesOrderIdPattern (generate_random_order_id now r1 r2) = true := by
  have e1 : digitRun 8 (strftimeYmd now ++ '-' :: (zeroPad 4 r1 ++ '-' :: (strftimeHms now ++ '-' :: zeroPad 4 r2)))
      = some ('-' :: (zeroPad 4 r1 ++ '-' :: (strftimeHms now ++ '-' :: zeroPad 4 r2))) :=
    digitRun_of 8 _ _ (strftimeYmd_length now hy (by omega) (by omega)) (strftimeYmd_digits now)
  have e2 : digitRun 4 (zeroPad 4 r1 ++ '-' :: (strftimeHms now ++ '-' :: zeroPad 4 r2))
      = some ('-' :: (strftimeHms now ++ '-' :: zeroPad 4 r2)) :=
    digitRun_of 4 _ _ (zeroPad_length 4 r1 (by omega) (by norm_num; omega)) (zeroPad_digits 4 r1)
  have e3 : digitRun 6 (strftimeHms now ++ '-' :: zeroPad 4 r2)
      = some ('-' :: zeroPad 4 r2) :=
    digitRun_of 6 _ _ (strftimeHms_length now (by omega) (by omega) (by omega)) (strftimeHms_digits now)
  have e4 : digitRun 4 (zeroPad 4 r2 ++ ([] : List Char)) = some [] :=
    digitRun_of 4 _ _ (zeroPad_length 4 r2 (by omega) (by norm_num; omega)) (zeroPad_digits 4 r2)
  rw [List.append_nil] at e4
  simp only [matchesOrderIdPattern, generate_random_order_id, List.cons_append,
    List.append_assoc, e1, Option.bind, expectDash, e2, e3, e4]

/-- Witness for C9 at a concrete instant and concrete draws. -/
theorem c9_order_id_witness :
    matchesOrderIdPattern (generate_random_order_id ⟨2026, 10, 12, 13, 14, 15⟩ 7 9999) = true :=
  c9_order_id ⟨2026, 10, 12, 13, 14, 15⟩ 7 9999 (by decide) (by decide) (by decide)
    (by decide) (by decide) (by decide) (by decide) (by decide) (by decide)

/-- The webhook mapper (everything after the header check) can only return
a value, an `InvalidResponseException`, or a raw Python exception — never an
`InvalidWebhookSignatureException`. -/
theorem handle_webhook_mapper_ne_sig (now : DateTime) (rd : List (String × JVal)) (m : String) :
    handle_webhook_mapper now rd ≠ .error (.invalidWebhookSignature m) := by
  unfold handle_webhook_mapper webhookBuild
  repeat' split
  all_goals simp

/-- Claim C3: `handle_webhook` fails with
`InvalidWebhookSignatureException("No 'Authorization' header")` exactly when
the lowercased header keys contain no `authorization` entry; when the key is
present the result is the webhook mapper applied to the payload alone — no
header value (in particular no signature value) is compared. -/
theorem c3_auth_header (now : DateTime) (rd hs : List (String × JVal)) :
    (handle_webhook now rd hs = .error (.invalidWebhookSignature "No \x27Authorization\x27 header")
      ↔ containsKey (lowerHeaders hs) "authorization" = false) ∧
    (containsKey (lowerHeaders hs) "authorization" = true →
      handle_webhook now rd hs = handle_webhook_mapper now rd) := by
  refine ⟨⟨fun h => ?_, fun h => ?_⟩, fun h => ?_⟩
  · cases hc : containsKey (lowerHeaders hs) "authorization" with
    | false => rfl
    | true =>
      rw [handle_webhook, hc] at h
      simp at h
      exact absurd h (handle_webhook_mapper_ne_sig now rd _)
  · rw [handle_webhook, h]
    rfl
  · rw [handle_webhook, h]
    rfl

/-- Witness for C3: with an `Authorization` header present (mixed case), the
handler is exactly the mapper; with no headers, the iff gives the
signature error. -/
theorem c3_auth_header_witness :
    handle_webhook ⟨2026, 1, 1, 0, 0, 0⟩ [] [("Authorization", .jstr "sig")] =
      handle_webhook_mapper ⟨2026, 1, 1, 0, 0, 0⟩ [] ∧
    handle_webhook ⟨2026, 1, 1, 0, 0, 0⟩ [] [] =
      .error (.invalidWebhookSignature "No \x27Authorization\x27 header") :=
  ⟨(c3_auth_header ⟨2026, 1, 1, 0, 0, 0⟩ [] [("Authorization", .jstr "sig")]).2 rfl,
   (c3_auth_header ⟨2026, 1, 1, 0, 0, 0⟩ [] []).1.mpr rfl⟩

/-- Holds (`true`) when a call failed with a raw (non-taxonomy) Python exception. -/
def isPyResult {α : Type} : Except LavaError α → Bool
  | .error (.pyError _) => true
  | _ => false

/-- Counterexample to claim C2: `handle_webhook` on a payload whose
`amount` is the non-numeric string "abc" (all four required keys present,
`Authorization` header present) raises the raw `ValueError` from `float()`
— it is not wrapped into `InvalidResponseException`. -/
theorem c2_counterexample :
    handle_webhook ⟨2026, 1, 1, 0, 0, 0⟩
      [("invoice_id", .jstr "1"), ("status", .jstr "success"),
       ("amount", .jstr "abc"), ("credited", .jstr "9.5")]
      [("Authorization", .jstr "sig")]
      = .error (.pyError (.valueError "could not convert string to float: \x27abc\x27")) ∧
    isPyResult (handle_webhook ⟨2026, 1, 1, 0, 0, 0⟩
      [("invoice_id", .jstr "1"), ("status", .jstr "success"),
       ("amount", .jstr "abc"), ("credited", .jstr "9.5")]
      [("Authorization", .jstr "sig")]) = true ∧
    (ErrKind.py == ErrKind.resp) = false :=
  ⟨rfl, rfl, rfl⟩

/-- Claim C2 (amended): only `create_invoice` wraps every unexpected
exception into `InvalidResponseException` (its handler never yields a raw
Python error, whatever the response); `get_balance`, `payoff` and
`handle_webhook` have no such wrapper and let raw internal exceptions
escape — `TypeError` from `int()` on a missing status, `AttributeError`
from `.keys()` on a non-dict 422 `error`, and `ValueError`/`TypeError` from
`float()`/`strptime()` on malformed webhook fields. -/
theorem c2_wrapping :
    (∀ rj, isPyResult (create_invoice_handle_response rj) = false) ∧
    isPyResult (get_balance_handle_response []) = true ∧
    isPyResult (payoff_handle_response [("status", .jnum 422), ("error", .jstr "notadict")]) = true ∧
    isPyResult (handle_webhook ⟨2026, 1, 1, 0, 0, 0⟩
      [("invoice_id", .jstr "1"), ("status", .jstr "ok"),
       ("amount", .jnull), ("credited", .jstr "1")]
      [("authorization", .jstr "sig")]) = true := by
  refine ⟨fun rj => ?_, rfl, rfl, rfl⟩
  unfold create_invoice_handle_response
  cases h : ciDispatch ((lookupJ rj "status").getD (.jnum 0)) rj with
  | ok v => rfl
  | error e =>
    cases e <;> rfl

/-- Counterexample to claim C1: the dispatch is not the same across the
three operations.  On the response `status=401, error="Invalid signature"`,
`get_balance` raises the generic `APIError` (its dispatch has no 401 arm),
not the `InvalidSignatureException` the claim requires. -/
theorem c1_counterexample :
    get_balance_handle_response [("status", .jnum 401), ("error", .jstr "Invalid signature")] =
      .error (.apiError "API error: Invalid signature" (.jstr "Invalid signature") (.jnum 401)) ∧
    errKind (get_balance_handle_response
      [("status", .jnum 401), ("error", .jstr "Invalid signature")]) = some ErrKind.api ∧
    (ErrKind.api == ErrKind.sig) = false :=
  ⟨rfl, rfl, rfl⟩

/-- Claim C1 (amended): `create_invoice` implements the four-way dispatch —
status 200 requires a present, non-null `data` field (else InvalidResponse);
422 with a dict `error` raises InvalidParameter listing the offending field
names with code 422; 401 raises InvalidSignature with code 401; any other
status (0 standing in for a missing one) raises the generic
CreateInvoiceException with code equal to the status value.  `get_balance`
and `payoff` instead use a three-way dispatch: 422 as above, but every
other non-200 status — 401 included — raises the generic APIError with
code `int(status)`, and a missing status makes `int(None)` raise an
uncaught TypeError instead of any taxonomy error. -/
theorem c1_dispatch :
    (∀ rj, lookupJ rj "status" = some (.jnum 200) → (lookupJ rj "data").getD .jnull = .jnull →
      create_invoice_handle_response rj = .error (.invalidResponse "")) ∧
    (∀ rj fs, lookupJ rj "status" = some (.jnum 422) → lookupJ rj "error" = some (.jobj fs) →
      create_invoice_handle_response rj = .error (.invalidParameter
        ("Invalid parameters: " ++ String.intercalate ", " (fs.map Prod.fst)
          ++ "; Code: " ++ pyStr (.jnum 422) ++ "; Message: " ++ pyStr (.jobj fs))
        (.jstr (pyStr (.jobj fs))) (.jnum 422))) ∧
    (∀ rj, lookupJ rj "status" = some (.jnum 401) →
      create_invoice_handle_response rj = .error (.invalidSignature
        ("Invalid signature. Code: " ++ pyStr (.jnum 401) ++ "; Message: "
          ++ pyStr ((lookupJ rj "error").getD (.jstr "")))
        ((lookupJ rj "error").getD (.jstr "")) (.jnum 401))) ∧
    (∀ rj st, (lookupJ rj "status").getD (.jnum 0) = st →
      jvalEqNum st 200 = false → jvalEqNum st 422 = false → jvalEqNum st 401 = false →
      create_invoice_handle_response rj = .error (.createInvoiceError
        ("Unexpected error. Code: " ++ pyStr st ++ "; Message: "
          ++ pyStr ((lookupJ rj "error").getD (.jstr "")))
        ((lookupJ rj "error").getD (.jstr "")) st)) ∧
    (∀ rj, lookupJ rj "status" = some (.jnum 401) →
      get_balance_handle_response rj = .error (.apiError
        ("API error: " ++ pyStr ((lookupJ rj "error").getD .jnull))
        (.jstr (pyStr ((lookupJ rj "error").getD .jnull))) (.jnum 401))) ∧
    (∀ rj, lookupJ rj "status" = some (.jnum 401) →
      payoff_handle_response rj = .error (.apiError
        ("API error: " ++ pyStr ((lookupJ rj "error").getD .jnull))
        (.jstr (pyStr ((lookupJ rj "error").getD .jnull))) (.jnum 401))) ∧
    (∀ rj, lookupJ rj "status" = none →
      get_balance_handle_response rj = .error (.pyError (.typeError
        "int() argument must be a string, a bytes-like object or a real number, not \x27NoneType\x27"))) := by
  refine ⟨?_, ?_, ?_, ?_, ?_, ?_, ?_⟩
  · intro rj h1 h2
    unfold create_invoice_handle_response ciDispatch
    rw [h1]
    simp only [Option.getD_some]
    rw [h2]
    rfl
  · intro rj fs h1 h2
    unfold create_invoice_handle_response ciDispatch
    rw [h1, h2]
    rfl
  · intro rj h1
    unfold create_invoice_handle_response ciDispatch
    rw [h1]
    rfl
  · intro rj st h1 h200 h422 h401
    unfold create_invoice_handle_response ciDispatch
    rw [h1, h200, h422, h401]
    rfl
  · intro rj h1
    unfold get_balance_handle_response gbDispatch
    rw [h1]
    rfl
  · intro rj h1
    unfold payoff_handle_response poDispatch
    rw [h1]
    rfl
  · intro rj h1
    unfold get_balance_handle_response gbDispatch
    rw [h1]
    rfl

/-- Witness for C1 at concrete responses for every arm of the amended
dispatch statement. -/
theorem c1_dispatch_witness :
    create_invoice_handle_response [("status", .jnum 200)] = .error (.invalidResponse "") ∧
    create_invoice_handle_response [("status", .jnum 422), ("error", .jobj [("sum", .jstr "too small")])]
      = .error (.invalidParameter
        ("Invalid parameters: " ++ String.intercalate ", " ([("sum", JVal.jstr "too small")].map Prod.fst)
          ++ "; Code: " ++ pyStr (.jnum 422) ++ "; Message: " ++ pyStr (.jobj [("sum", .jstr "too small")]))
        (.jstr (pyStr (.jobj [("sum", .jstr "too small")]))) (.jnum 422)) ∧
    create_invoice_handle_response [("status", .jnum 401), ("error", .jstr "bad")]
      = .error (.invalidSignature
        ("Invalid signature. Code: " ++ pyStr (.jnum 401) ++ "; Message: "
          ++ pyStr ((lookupJ [("status", JVal.jnum 401), ("error", JVal.jstr "bad")] "error").getD (.jstr "")))
        ((lookupJ [("status", JVal.jnum 401), ("error", JVal.jstr "bad")] "error").getD (.jstr "")) (.jnum 401)) ∧
    create_invoice_handle_response [("status", .jnum 500)]
      = .error (.createInvoiceError
        ("Unexpected error. Code: " ++ pyStr (.jnum 500) ++ "; Message: "
          ++ pyStr ((lookupJ [("status", JVal.jnum 500)] "error").getD (.jstr "")))
        ((lookupJ [("status", JVal.jnum 500)] "error").getD (.jstr "")) (.jnum 500)) ∧
    get_balance_handle_response [("status", .jnum 401)]
      = .error (.apiError ("API error: " ++ pyStr ((lookupJ [("status", JVal.jnum 401)] "error").getD .jnull))
        (.jstr (pyStr ((lookupJ [("status", JVal.jnum 401)] "error").getD .jnull))) (.jnum 401)) ∧
    payoff_handle_response [("status", .jnum 401)]
      = .error (.apiError ("API error: " ++ pyStr ((lookupJ [("status", JVal.jnum 401)] "error").getD .jnull))
        (.jstr (pyStr ((lookupJ [("status", JVal.jnum 401)] "error").getD .jnull))) (.jnum 401)) ∧
    get_balance_handle_response [("history", .jarr [])]
      = .error (.pyError (.typeError
        "int() argument must be a string, a bytes-like object or a real number, not \x27NoneType\x27")) :=
  ⟨c1_dispatch.1 _ rfl rfl,
   c1_dispatch.2.1 _ [("sum", .jstr "too small")] rfl rfl,
   c1_dispatch.2.2.1 _ rfl,
   c1_dispatch.2.2.2.1 _ (.jnum 500) rfl rfl rfl rfl,
   c1_dispatch.2.2.2.2.1 _ rfl,
   c1_dispatch.2.2.2.2.2.1 _ rfl,
   c1_dispatch.2.2.2.2.2.2 _ rfl⟩

/-- The message of an `InvalidResponseException` result, if that is what
the call produced. -/
def respMessage {α : Type} : Except LavaError α → Option String
  | .error (.invalidResponse m) => some m
  | _ => none

/-- Counterexample to claim C6: on a 200 response whose `data` lacks the
required `id`, the caller does not see
`InvalidResponseException("Error while reading data from dictionary")` —
the outer `except Exception` re-raises a bare `InvalidResponseException`,
so the message the caller sees is empty. -/
theorem c6_counterexample :
    respMessage (create_invoice_handle_response
      [("status", .jnum 200), ("data", .jobj [("amount", .jnum 10)])]) = some "" ∧
    (("" : String) == "Error while reading data from dictionary") = false :=
  ⟨rfl, rfl⟩

/-- A `data` object missing any of the six required invoice fields makes the
mapper raise `InvalidResponseException("Error while reading data from
dictionary")`. -/
theorem invoiceFromData_missing (df : List (String × JVal))
    (hmiss : lookupJ df "id" = none ∨ lookupJ df "amount" = none ∨
      lookupJ df "expired" = none ∨ lookupJ df "status" = none ∨
      lookupJ df "shop_id" = none ∨ lookupJ df "url" = none) :
    invoiceFromData df = .error (.invalidResponse "Error while reading data from dictionary") := by
  unfold invoiceFromData
  rcases hmiss with h | h | h | h | h | h <;> (repeat' split) <;> simp_all

/-- Claim C6 (amended): on a 200 response whose `data` object has the six
required fields and none of the optional ones, `create_invoice` returns the
`InvoiceInfo` with the defaults `"Merchant"`, `"Comment"` and empty service
lists (a JSON-null service list also defaults to the empty list); when a
required field is missing, the mapper raises `InvalidResponseException`
with message "Error while reading data from dictionary", but the outer
re-wrap replaces it with a message-less `InvalidResponseException`, so the
caller-visible message is empty, not the documented one. -/
theorem c6_invoice_mapping :
    (∀ rj df vid vam vex vst vsh vurl,
      lookupJ rj "status" = some (.jnum 200) →
      lookupJ rj "data" = some (.jobj df) →
      lookupJ df "id" = some vid →
      lookupJ df "amount" = some vam →
      lookupJ df "expired" = some vex →
      lookupJ df "status" = some vst →
      lookupJ df "shop_id" = some vsh →
      lookupJ df "url" = some vurl →
      lookupJ df "merchantName" = none →
      lookupJ df "comment" = none →
      (lookupJ df "include_service" = none ∨ lookupJ df "include_service" = some .jnull) →
      (lookupJ df "exclude_service" = none ∨ lookupJ df "exclude_service" = some .jnull) →
      create_invoice_handle_response rj =
        .ok ⟨vid, vam, vex, vst, vsh, .jstr "Merchant", vurl, .jstr "Comment", .jarr [], .jarr []⟩) ∧
    (∀ rj df,
      lookupJ rj "status" = some (.jnum 200) →
      lookupJ rj "data" = some (.jobj df) →
      (lookupJ df "id" = none ∨ lookupJ df "amount" = none ∨
        lookupJ df "expired" = none ∨ lookupJ df "status" = none ∨
        lookupJ df "shop_id" = none ∨ lookupJ df "url" = none) →
      invoiceFromData df = .error (.invalidResponse "Error while reading data from dictionary") ∧
      create_invoice_handle_response rj = .error (.invalidResponse "")) := by
  constructor
  · intro rj df vid vam vex vst vsh vurl h1 h2 hid ham hex hst hsh hurl hmn hcm hinc hexc
    unfold create_invoice_handle_response ciDispatch invoiceFromData
    rw [h1]
    simp only [Option.getD_some]
    rw [h2]
    simp only [Option.getD_some]
    rw [hid, ham, hex, hst, hsh, hurl, hmn, hcm]
    rcases hinc with hi | hi <;> rcases hexc with he | he <;> rw [hi, he] <;> rfl
  · intro rj df h1 h2 hmiss
    have hinner := invoiceFromData_missing df hmiss
    refine ⟨hinner, ?_⟩
    unfold create_invoice_handle_response ciDispatch
    rw [h1]
    simp only [Option.getD_some]
    rw [h2]
    simp only [Option.getD_some]
    rw [hinner]
    rfl

/-- Witness for C6: a fully-populated minimal `data` object gets the three
defaults; a `data` object lacking `id` yields the message-less
`InvalidResponseException`. -/
theorem c6_invoice_mapping_witness :
    create_invoice_handle_response [("status", .jnum 200), ("data", .jobj
      [("id", .jstr "inv1"), ("amount", .jnum 10), ("expired", .jstr "t"),
       ("status", .jnum 1), ("shop_id", .jstr "shop"), ("url", .jstr "u"),
       ("include_service", .jnull)])] =
      .ok ⟨.jstr "inv1", .jnum 10, .jstr "t", .jnum 1, .jstr "shop",
        .jstr "Merchant", .jstr "u", .jstr "Comment", .jarr [], .jarr []⟩ ∧
    invoiceFromData [("amount", .jnum 10)] =
      .error (.invalidResponse "Error while reading data from dictionary") ∧
    create_invoice_handle_response [("status", .jnum 200), ("data", .jobj [("amount", .jnum 10)])] =
      .error (.invalidResponse "") :=
  ⟨c6_invoice_mapping.1 _ _ _ _ _ _ _ _ rfl rfl rfl rfl rfl rfl rfl rfl rfl rfl
      (Or.inr rfl) (Or.inl rfl),
   (c6_invoice_mapping.2 [("status", .jnum 200), ("data", .jobj [("amount", .jnum 10)])]
      [("amount", .jnum 10)] rfl rfl (Or.inl rfl)).1,
   (c6_invoice_mapping.2 [("status", .jnum 200), ("data", .jobj [("amount", .jnum 10)])]
      [("amount", .jnum 10)] rfl rfl (Or.inl rfl)).2⟩

/-- Whether `needle` occurs contiguously inside `hay`. -/
def strContainsSub (needle hay : String) : Bool :=
  (List.range (hay.data.length + 1)).any (fun i => needle.data.isPrefixOf (hay.data.drop i))

/-- Counterexample to claim C8: when `payoff_id` is missing, the message is
"No 'payoff' field" — it names `payoff`, not the actually missing field
`payoff_id`. -/
theorem c8_counterexample :
    payoff_handle_response [("status", .jnum 200), ("data", .jobj [("id", .jstr "7")])] =
      .error (.invalidResponse "No \x27payoff\x27 field") ∧
    strContainsSub "payoff_id" "No \x27payoff\x27 field" = false ∧
    strContainsSub "data" "No \x27data\x27 field" = true :=
  ⟨rfl, rfl, rfl⟩

/-- Claim C8 (amended): on a 200 payoff response, `payoff` requires
`data.payoff_id` and returns `str()` of it; a missing `data` raises
`InvalidResponseException("No 'data' field")` (naming the missing field),
while a missing `payoff_id` raises
`InvalidResponseException("No 'payoff' field")`, whose message says
`payoff` rather than the actual key `payoff_id`. -/
theorem c8_payoff_mapping :
    (∀ rj df v, lookupJ rj "status" = some (.jnum 200) →
      lookupJ rj "data" = some (.jobj df) →
      lookupJ df "payoff_id" = some v →
      payoff_handle_response rj = .ok (pyStr v)) ∧
    (∀ rj df, lookupJ rj "status" = some (.jnum 200) →
      lookupJ rj "data" = some (.jobj df) →
      lookupJ df "payoff_id" = none →
      payoff_handle_response rj = .error (.invalidResponse "No \x27payoff\x27 field")) ∧
    (∀ rj, lookupJ rj "status" = some (.jnum 200) →
      lookupJ rj "data" = none →
      payoff_handle_response rj = .error (.invalidResponse "No \x27data\x27 field")) := by
  refine ⟨?_, ?_, ?_⟩
  · intro rj df v h1 h2 h3
    unfold payoff_handle_response poDispatch payoffFromResponse
    rw [h1]
    simp only [Option.getD_some, h2, h3]
    rfl
  · intro rj df h1 h2 h3
    unfold payoff_handle_response poDispatch payoffFromResponse
    rw [h1]
    simp only [Option.getD_some, h2, h3]
    rfl
  · intro rj h1 h2
    unfold payoff_handle_response poDispatch payoffFromResponse
    rw [h1]
    simp only [Option.getD_some, h2]
    rfl

/-- Witness for C8 at concrete payoff responses. -/
theorem c8_payoff_mapping_witness :
    payoff_handle_response [("status", .jnum 200), ("data", .jobj [("payoff_id", .jnum 12)])] =
      .ok (pyStr (.jnum 12)) ∧
    payoff_handle_response [("status", .jnum 200), ("data", .jobj [])] =
      .error (.invalidResponse "No \x27payoff\x27 field") ∧
    payoff_handle_response [("status", .jnum 200)] =
      .error (.invalidResponse "No \x27data\x27 field") :=
  ⟨c8_payoff_mapping.1 _ [("payoff_id", .jnum 12)] _ rfl rfl rfl,
   c8_payoff_mapping.2.1 _ [] rfl rfl rfl,
   c8_payoff_mapping.2.2 _ rfl rfl⟩

/-- The `payed` field, when present, is a string (so `strptime` gets a
`str` and no uncaught `TypeError` occurs). -/
def payedOk (rd : List (String × JVal)) : Bool :=
  match lookupJ rd "payed" with
  | none => true
  | some (.jstr _) => true
  | some _ => false

/-- The named field, when present, is accepted by `float()`. -/
def floatOkIfPresent (rd : List (String × JVal)) (k : String) : Bool :=
  match lookupJ rd k with
  | none => true
  | some v =>
    match pyFloatJ v with
    | .ok _ => true
    | .error _ => false

/-- Success path of the webhook constructor phase. -/
theorem webhookBuild_ok (rd : List (String × JVal)) (vid vst va vc : JVal)
    (qa qc : Rat) (pay_time : DateTime)
    (hid : lookupJ rd "invoice_id" = some vid)
    (hst : lookupJ rd "status" = some vst)
    (ham : lookupJ rd "amount" = some va) (hfa : pyFloatJ va = .ok qa)
    (hcr : lookupJ rd "credited" = some vc) (hfc : pyFloatJ vc = .ok qc) :
    webhookBuild pay_time rd = .ok ⟨vid, (lookupJ rd "order_id").getD (.jstr ""), vst,
      jvalEqStr vst "success", pay_time, qa, qc, (lookupJ rd "custom_field").getD .jnull⟩ := by
  unfold webhookBuild
  simp only [hid, hst, ham, hfa, hcr, hfc]

/-- Success path of `handle_webhook`: with the header present, a
well-formed `payed` field and the four required fields present with
`float()`-convertible amounts, the handler returns the mapped record. -/
theorem handle_webhook_ok (now : DateTime) (rd hs : List (String × JVal))
    (vid vst va vc : JVal) (qa qc : Rat)
    (hauth : containsKey (lowerHeaders hs) "authorization" = true)
    (hp : payedOk rd = true)
    (hid : lookupJ rd "invoice_id" = some vid)
    (hst : lookupJ rd "status" = some vst)
    (ham : lookupJ rd "amount" = some va) (hfa : pyFloatJ va = .ok qa)
    (hcr : lookupJ rd "credited" = some vc) (hfc : pyFloatJ vc = .ok qc) :
    handle_webhook now rd hs = .ok ⟨vid, (lookupJ rd "order_id").getD (.jstr ""), vst,
      jvalEqStr vst "success", webhookPayTime now rd, qa, qc,
      (lookupJ rd "custom_field").getD .jnull⟩ := by
  unfold handle_webhook handle_webhook_mapper webhookPayTime
  rw [hauth]
  simp only [if_true]
  unfold payedOk at hp
  cases hq : lookupJ rd "payed" with
  | none =>
    simp only [hq]
    exact webhookBuild_ok rd vid vst va vc qa qc now hid hst ham hfa hcr hfc
  | some v =>
    rw [hq] at hp
    cases v with
    | jstr s =>
      simp only [hq]
      exact webhookBuild_ok rd vid vst va vc qa qc _ hid hst ham hfa hcr hfc
    | jnull => simp at hp
    | jbool b => simp at hp
    | jnum q => simp at hp
    | jarr xs => simp at hp
    | jobj fs => simp at hp

/-- A payload missing any of the four required webhook keys (with a
well-typed `amount` when present) makes the constructor phase raise the
`KeyError`-mapped `InvalidResponseException`. -/
theorem webhookBuild_missing (pt : DateTime) (rd : List (String × JVal))
    (hfa : floatOkIfPresent rd "amount" = true)
    (hmiss : lookupJ rd "invoice_id" = none ∨ lookupJ rd "status" = none ∨
      lookupJ rd "amount" = none ∨ lookupJ rd "credited" = none) :
    webhookBuild pt rd = .error (.invalidResponse "Error while reading data from dictionary") := by
  unfold webhookBuild
  unfold floatOkIfPresent at hfa
  rcases hmiss with h | h | h | h <;> (repeat' split) <;> simp_all

/-- Operation `handle_webhook` on a payload missing a required key. -/
theorem handle_webhook_missing (now : DateTime) (rd hs : List (String × JVal))
    (hauth : containsKey (lowerHeaders hs) "authorization" = true)
    (hp : payedOk rd = true)
    (hfa : floatOkIfPresent rd "amount" = true)
    (hmiss : lookupJ rd "invoice_id" = none ∨ lookupJ rd "status" = none ∨
      lookupJ rd "amount" = none ∨ lookupJ rd "credited" = none) :
    handle_webhook now rd hs = .error (.invalidResponse "Error while reading data from dictionary") := by
  unfold handle_webhook handle_webhook_mapper
  rw [hauth]
  simp only [if_true]
  unfold payedOk at hp
  cases hq : lookupJ rd "payed" with
  | none =>
    simp only [hq]
    exact webhookBuild_missing now rd hfa hmiss
  | some v =>
    rw [hq] at hp
    cases v with
    | jstr s =>
      simp only [hq]
      exact webhookBuild_missing _ rd hfa hmiss
    | jnull => simp at hp
    | jbool b => simp at hp
    | jnum q => simp at hp
    | jarr xs => simp at hp
    | jobj fs => simp at hp

/-- Holds (`true`) exactly on successful (`.ok`) results. -/
def isOkResult {α : Type} : Except LavaError α → Bool
  | .ok _ => true
  | _ => false

/-- Counterexample to claim C5: a payload holding all four required keys
whose `credited` is the non-numeric string "xyz" produces neither a
`SuccessfulInvoiceInfo` nor an `InvalidResponseException`: the raw
`ValueError` from `float()` escapes. -/
theorem c5_counterexample :
    handle_webhook ⟨2026, 1, 1, 0, 0, 0⟩
      [("invoice_id", .jstr "1"), ("status", .jstr "success"),
       ("amount", .jstr "10.0"), ("credited", .jstr "xyz")]
      [("Authorization", .jstr "x")]
      = .error (.pyError (.valueError "could not convert string to float: \x27xyz\x27")) ∧
    isOkResult (handle_webhook ⟨2026, 1, 1, 0, 0, 0⟩
      [("invoice_id", .jstr "1"), ("status", .jstr "success"),
       ("amount", .jstr "10.0"), ("credited", .jstr "xyz")]
      [("Authorization", .jstr "x")]) = false :=
  ⟨rfl, rfl⟩

/-- Claim C5 (amended): with the `Authorization` header present, a `payed`
field that is absent or a string, and the four required keys present with
`float()`-convertible `amount` and `credited`, `handle_webhook` returns the
`SuccessfulInvoiceInfo` whose `payed` flag is true exactly when the status
value is the string "success", whose `pay_time` is parsed from the `payed`
string in `%Y-%m-%d %H:%M:%S` format falling back to `now` when the field
is absent or unparseable, and whose amounts are the `float()` conversions;
when any of the four required keys is missing (the earlier-read fields
being well-typed), it raises `InvalidResponseException`.  (For non-numeric
amount strings or a non-string `payed` value the handler instead lets a
raw `ValueError`/`TypeError` escape — see C2.) -/
theorem c5_webhook_mapping :
    (∀ now rd hs vid vst va vc qa qc,
      containsKey (lowerHeaders hs) "authorization" = true →
      payedOk rd = true →
      lookupJ rd "invoice_id" = some vid →
      lookupJ rd "status" = some vst →
      lookupJ rd "amount" = some va → pyFloatJ va = .ok qa →
      lookupJ rd "credited" = some vc → pyFloatJ vc = .ok qc →
      handle_webhook now rd hs = .ok ⟨vid, (lookupJ rd "order_id").getD (.jstr ""), vst,
        jvalEqStr vst "success", webhookPayTime now rd, qa, qc,
        (lookupJ rd "custom_field").getD .jnull⟩) ∧
    (∀ now rd hs,
      containsKey (lowerHeaders hs) "authorization" = true →
      payedOk rd = true →
      floatOkIfPresent rd "amount" = true →
      (lookupJ rd "invoice_id" = none ∨ lookupJ rd "status" = none ∨
        lookupJ rd "amount" = none ∨ lookupJ rd "credited" = none) →
      handle_webhook now rd hs = .error (.invalidResponse "Error while reading data from dictionary")) :=
  ⟨fun now rd hs vid vst va vc qa qc hauth hp hid hst ham hfa hcr hfc =>
    handle_webhook_ok now rd hs vid vst va vc qa qc hauth hp hid hst ham hfa hcr hfc,
   fun now rd hs hauth hp hfa hmiss =>
    handle_webhook_missing now rd hs hauth hp hfa hmiss⟩

/-- Witness for C5 at the spec's example payload (and at a payload missing
`credited`). -/
theorem c5_webhook_mapping_witness :
    handle_webhook ⟨2026, 1, 1, 0, 0, 0⟩
      [("invoice_id", .jstr "1"), ("status", .jstr "success"),
       ("amount", .jstr "10.0"), ("credited", .jstr "9.5")]
      [("Authorization", .jstr "x")]
      = .ok ⟨.jstr "1",
        (lookupJ [("invoice_id", JVal.jstr "1"), ("status", JVal.jstr "success"),
          ("amount", JVal.jstr "10.0"), ("credited", JVal.jstr "9.5")] "order_id").getD (.jstr ""),
        .jstr "success", jvalEqStr (.jstr "success") "success",
        webhookPayTime ⟨2026, 1, 1, 0, 0, 0⟩
          [("invoice_id", JVal.jstr "1"), ("status", JVal.jstr "success"),
           ("amount", JVal.jstr "10.0"), ("credited", JVal.jstr "9.5")],
        mkRat 100 10, mkRat 95 10,
        (lookupJ [("invoice_id", JVal.jstr "1"), ("status", JVal.jstr "success"),
          ("amount", JVal.jstr "10.0"), ("credited", JVal.jstr "9.5")] "custom_field").getD .jnull⟩ ∧
    handle_webhook ⟨2026, 1, 1, 0, 0, 0⟩
      [("invoice_id", .jstr "1"), ("status", .jstr "success"), ("amount", .jstr "10.0")]
      [("AUTHORIZATION", .jstr "x")]
      = .error (.invalidResponse "Error while reading data from dictionary") :=
  ⟨c5_webhook_mapping.1 ⟨2026, 1, 1, 0, 0, 0⟩ _ _ _ _ _ _ (mkRat 100 10) (mkRat 95 10)
      rfl rfl rfl rfl rfl rfl rfl rfl,
   c5_webhook_mapping.2 ⟨2026, 1, 1, 0, 0, 0⟩ _ _ rfl rfl rfl
      (Or.inr (Or.inr (Or.inr rfl)))⟩

/-- The `custom_field` stored in a successful webhook result. -/
def resultCustomField : Except LavaError SuccessfulInvoiceInfo → Option JVal
  | .ok i => some i.custom_field
  | .error _ => none

/-- Counterexample to claim C7: on a payload without `custom_field` the
mapped field is Python `None` (`jnull`), not the empty string the claim
asserts. -/
theorem c7_counterexample :
    resultCustomField (handle_webhook ⟨2026, 1, 1, 0, 0, 0⟩
      [("invoice_id", .jstr "2"), ("status", .jstr "success"),
       ("amount", .jstr "10.0"), ("credited", .jstr "9.5")]
      [("Authorization", .jstr "y")]) = some .jnull ∧
    jvalEqStr .jnull "" = false :=
  ⟨rfl, rfl⟩

/-- Claim C7 (amended): the malformed conditional makes its tuple test
always true, so the `else ""` default is dead code: on the success path the
stored `custom_field` is exactly `received_data.get("custom_field")` —
Python `None` (`jnull`) when the key is absent, and the raw value when it
is present.  It is never forced to the empty string. -/
theorem c7_custom_field :
    (∀ now rd hs vid vst va vc qa qc,
      containsKey (lowerHeaders hs) "authorization" = true →
      payedOk rd = true →
      lookupJ rd "invoice_id" = some vid →
      lookupJ rd "status" = some vst →
      lookupJ rd "amount" = some va → pyFloatJ va = .ok qa →
      lookupJ rd "credited" = some vc → pyFloatJ vc = .ok qc →
      lookupJ rd "custom_field" = none →
      resultCustomField (handle_webhook now rd hs) = some .jnull) ∧
    (∀ now rd hs vid vst va vc qa qc v,
      containsKey (lowerHeaders hs) "authorization" = true →
      payedOk rd = true →
      lookupJ rd "invoice_id" = some vid →
      lookupJ rd "status" = some vst →
      lookupJ rd "amount" = some va → pyFloatJ va = .ok qa →
      lookupJ rd "credited" = some vc → pyFloatJ vc = .ok qc →
      lookupJ rd "custom_field" = some v →
      resultCustomField (handle_webhook now rd hs) = some v) := by
  constructor
  · intro now rd hs vid vst va vc qa qc hauth hp hid hst ham hfa hcr hfc hcf
    rw [handle_webhook_ok now rd hs vid vst va vc qa qc hauth hp hid hst ham hfa hcr hfc]
    simp [resultCustomField, hcf]
  · intro now rd hs vid vst va vc qa qc v hauth hp hid hst ham hfa hcr hfc hcf
    rw [handle_webhook_ok now rd hs vid vst va vc qa qc hauth hp hid hst ham hfa hcr hfc]
    simp [resultCustomField, hcf]

/-- Witness for C7: absent `custom_field` gives `None`; a present value is
passed through unchanged. -/
theorem c7_custom_field_witness :
    resultCustomField (handle_webhook ⟨2026, 1, 1, 0, 0, 0⟩
      [("invoice_id", .jstr "3"), ("status", .jstr "error"),
       ("amount", .jnum 5), ("credited", .jnum 4)]
      [("authorization", .jstr "z")]) = some .jnull ∧
    resultCustomField (handle_webhook ⟨2026, 1, 1, 0, 0, 0⟩
      [("invoice_id", .jstr "3"), ("status", .jstr "error"),
       ("amount", .jnum 5), ("credited", .jnum 4), ("custom_field", .jstr "tag")]
      [("authorization", .jstr "z")]) = some (.jstr "tag") :=
  ⟨c7_custom_field.1 ⟨2026, 1, 1, 0, 0, 0⟩ _ _ _ _ _ _ 5 4 rfl rfl rfl rfl rfl rfl rfl rfl rfl,
   c7_custom_field.2 ⟨2026, 1, 1, 0, 0, 0⟩ _ _ _ _ _ _ 5 4 _ rfl rfl rfl rfl rfl rfl rfl rfl rfl⟩

/-- Claim C10: `handle_webhook` leaves both argument dicts exactly as they
were — on every path, returning or raising — and the state-passing
embedding computes the same result as the direct one (the case-insensitive
lookup happens on a freshly built lowercased copy, never by writing to the
arguments). -/
theorem c10_no_mutation (now : DateTime) (st : WebhookArgs) :
    (handle_webhook_st now st).2 = st ∧
    (handle_webhook_st now st).1 = handle_webhook now st.received_data st.headers := by
  constructor
  · unfold handle_webhook_st webhookBuildSt whItems whGetRD
    dsimp only
    repeat' split
    all_goals rfl
  · unfold handle_webhook_st webhookBuildSt whItems whGetRD handle_webhook
      handle_webhook_mapper webhookBuild lowerHeaders containsKey
    dsimp only
    repeat' split
    all_goals simp_all
